import Mathlib

/-
Verification of the obsidian-gemini-ai-title-generator plugin.

Document text is modelled as List Char (JavaScript strings are sequences of
code units; all inputs of interest here are plain text). Short labels such
as notice messages and JSON keys stay as Lean String values.

Two program versions are embedded:
  - src/main.ts: the current plugin (image-line pre-filter, external
    ts-textrank summarizer treated as a parameter, 500-character fallback,
    Gemini response handling, rename logic);
  - src/unnamed/part_000: the older variant with a built-in sentence
    splitter and first-K selection.
-/

set_option maxRecDepth 8000

/-- Models the JavaScript String.split behaviour for a single-character
class: the text is cut at every character satisfying p, the separators are
dropped, and empty fragments are kept (so the result always has one more
fragment than there are separator characters). -/
def splitChars (p : Char → Bool) : List Char → List (List Char)
  | [] => [[]]
  | c :: cs =>
    if p c then [] :: splitChars p cs
    else
      match splitChars p cs with
      | [] => [[c]]
      | t :: ts => (c :: t) :: ts

/-- Models JavaScript String.trim: drop whitespace from both ends. -/
def trimChars (l : List Char) : List Char :=
  ((l.dropWhile Char.isWhitespace).reverse.dropWhile Char.isWhitespace).reverse

/-- Helper state machine for wsSplit. The first argument is some acc while
a fragment is being accumulated (in reverse), and none while a maximal
whitespace run is being consumed. -/
def wsSplitAux : Option (List Char) → List Char → List (List Char)
  | none, [] => [[]]
  | some acc, [] => [acc.reverse]
  | none, c :: cs =>
    if c.isWhitespace then wsSplitAux none cs
    else wsSplitAux (some [c]) cs
  | some acc, c :: cs =>
    if c.isWhitespace then acc.reverse :: wsSplitAux none cs
    else wsSplitAux (some (c :: acc)) cs

/-- Models the JavaScript split on a run of whitespace (the regex used at
src/unnamed/part_000 line 167 to count words): the text is cut at every
maximal whitespace run. -/
def wsSplit (l : List Char) : List (List Char) :=
  wsSplitAux (some []) l

/-- Models Array.prototype.join with a one-character separator. -/
def joinWith (separator : Char) : List (List Char) → List Char
  | [] => []
  | [l] => l
  | l :: ls => l ++ separator :: joinWith separator ls

/-! Definitions for src/main.ts. -/

/-- Models the test of the regex at src/main.ts line 259 against a line: a
line matches exactly when it starts with the three characters of an image
embed opener, ends with two closing square brackets, and is long enough
for those two groups not to overlap. -/
def isImageLine (l : List Char) : Bool :=
  decide (l.take 3 = ['!', '[', '[']) &&
  decide (l.reverse.take 2 = [']', ']']) &&
  decide (5 ≤ l.length)

/-- Models noteContent.split of a newline at src/main.ts line 260. -/
def noteLines (noteContent : List Char) : List (List Char) :=
  splitChars (fun c => c == '\n') noteContent

/-- Models src/main.ts lines 261 to 262: drop every line that is solely an
image embed (after trimming the line) and rejoin with newlines. -/
def processedNoteContent (noteContent : List Char) : List Char :=
  joinWith '\n'
    ((noteLines noteContent).filter (fun line => !isImageLine (trimChars line)))

/-- Models src/main.ts lines 281 to 298. The ts-textrank summarizer is an
external library, so its outcome is a parameter: Except.ok ss means the
summarize call returned the sentence list ss, Except.error means it threw.
When the summarizer yields at least one sentence they are joined with
spaces; otherwise (and on a thrown error) the fallback takes the first 500
characters of the filtered text when that text is non-empty after
trimming, and of the original text otherwise. -/
def extractedSentences (summOutcome : Except Unit (List (List Char)))
    (noteContent : List Char) : List Char :=
  let processed := processedNoteContent noteContent
  match summOutcome with
  | Except.ok ss =>
    if 0 < ss.length then joinWith ' ' ss
    else if (trimChars processed).isEmpty then noteContent.take 500
    else processed.take 500
  | Except.error _ =>
    if (trimChars processed).isEmpty then noteContent.take 500
    else processed.take 500

/-- Outcome of the extraction stage of generateTitle in src/main.ts.
emptyDocument and noMeaningfulContent both make generateTitle return null,
each after its own notice (lines 301 to 312); context carries the string
handed to the Gemini prompt. -/
inductive ExtractOutcome
  | emptyDocument
  | noMeaningfulContent
  | context (s : List Char)
  deriving DecidableEq

/-- Models src/main.ts lines 301 to 312: when the extracted string is empty
after trimming, the original note content decides which notice is shown
and null is returned; otherwise the extracted string is the context. -/
def extractionResult (summOutcome : Except Unit (List (List Char)))
    (noteContent : List Char) : ExtractOutcome :=
  let es := extractedSentences summOutcome noteContent
  if (trimChars es).isEmpty then
    if (trimChars noteContent).isEmpty then ExtractOutcome.emptyDocument
    else ExtractOutcome.noMeaningfulContent
  else ExtractOutcome.context es

/-- Parsed JSON values, as produced by JSON.parse at src/main.ts line 362.
Objects are the already-parsed association lists with duplicate keys
resolved by the parser. Numbers are modelled as integers; no claim depends
on fractional values. -/
inductive JsonValue
  | null
  | bool (b : Bool)
  | num (n : Int)
  | str (s : String)
  | arr (elements : List JsonValue)
  | obj (fields : List (String × JsonValue))

/-- JavaScript truthiness of a parsed JSON value. -/
def jsTruthy : JsonValue → Bool
  | JsonValue.null => false
  | JsonValue.bool b => b
  | JsonValue.num n => !(n == 0)
  | JsonValue.str s => !(s == "")
  | JsonValue.arr _ => true
  | JsonValue.obj _ => true

/-- Field access on a parsed JSON object. -/
def lookupField (fields : List (String × JsonValue)) (key : String) :
    Option JsonValue :=
  (fields.find? (fun p => p.1 == key)).map Prod.snd

/-- Models the property access jsonResponse.title at src/main.ts line 363:
defined only on objects, undefined (none) on every other value. -/
def jsGetTitle : JsonValue → Option JsonValue
  | JsonValue.obj fields => lookupField fields "title"
  | _ => none

/-- Models String.prototype.trim on a Lean String via trimChars. -/
def trimString (s : String) : String :=
  String.mk (trimChars s.data)

/-- Outcome of the Gemini response handling: failure carries the notice
text shown before generateTitle returns null; title carries the returned
trimmed title string. -/
inductive TitleOutcome
  | failure (msg : String)
  | title (t : String)
  deriving DecidableEq

/-- Models the condition at src/main.ts line 363: jsonResponse is truthy,
jsonResponse.title is truthy, and jsonResponse.title is a string. Returns
the title string when all three hold, none otherwise. -/
def validTitleCheck (j : JsonValue) : Option String :=
  if jsTruthy j then
    match jsGetTitle j with
    | some t =>
      if jsTruthy t then
        match t with
        | JsonValue.str s => some s
        | _ => none
      else none
    | none => none
  else none

/-- Models src/main.ts lines 359 to 376. The argument describes the oracle
interaction: none is a missing result.response; some none is a response
whose text JSON.parse rejects; some (some j) is a response parsed to j. -/
def handleOracleResponse : Option (Option JsonValue) → TitleOutcome
  | none =>
    TitleOutcome.failure "Failed to generate title from Gemini API. No response."
  | some none =>
    TitleOutcome.failure "Failed to parse Gemini JSON response for title."
  | some (some j) =>
    match validTitleCheck j with
    | some s => TitleOutcome.title (trimString s)
    | none =>
      TitleOutcome.failure "Failed to get a valid title from Gemini JSON response."

/-- Decides whether the title field of a parsed value exists and is a
string. -/
def titleFieldIsString (j : JsonValue) : Bool :=
  match jsGetTitle j with
  | some (JsonValue.str _) => true
  | _ => false

/-- Decides whether a response outcome parses to a JSON value whose title
field exists and is a string: exactly the complement of the four failure
shapes named in the spec (missing response, malformed JSON, missing title
field, non-string title). -/
def responseHasParsedStringTitle : Option (Option JsonValue) → Bool
  | some (some j) => titleFieldIsString j
  | _ => false

/-- True exactly on the failure outcomes of handleOracleResponse, i.e. the
paths of src/main.ts lines 359 to 376 that show a notice and return null. -/
def isFailureOutcome : TitleOutcome → Bool
  | TitleOutcome.failure _ => true
  | TitleOutcome.title _ => false

/-- Overall result of generateTitle in src/main.ts. configError models the
early return at lines 250 to 253; emptyDoc and noContent model the null
returns at lines 304 to 311; oracleFailure models a notice plus null from
the response handling; titleResult is the returned title. -/
inductive GenResult
  | configError
  | emptyDoc
  | noContent
  | oracleFailure (msg : String)
  | titleResult (t : String)
  deriving DecidableEq

/-- Models generateTitle of src/main.ts lines 249 to 382, with the two
external effects (the ts-textrank summarize call and the Gemini request)
supplied as parameters. The api key guard at line 250 fires exactly on the
empty string, before any extraction work. -/
def generateTitle (apiKey : String) (noteContent : List Char)
    (summOutcome : Except Unit (List (List Char)))
    (oracleResponse : Option (Option JsonValue)) : GenResult :=
  if apiKey = "" then GenResult.configError
  else
    match extractionResult summOutcome noteContent with
    | ExtractOutcome.emptyDocument => GenResult.emptyDoc
    | ExtractOutcome.noMeaningfulContent => GenResult.noContent
    | ExtractOutcome.context _ =>
      match handleOracleResponse oracleResponse with
      | TitleOutcome.failure m => GenResult.oracleFailure m
      | TitleOutcome.title t => GenResult.titleResult t

/-- The characters removed by the first replace at src/main.ts line 393. -/
def forbiddenFilenameChar (c : Char) : Bool :=
  c == '\\' || c == '/' || c == ':' || c == '*' || c == '?' ||
  c == '"' || c == '<' || c == '>' || c == '|'

/-- Models src/main.ts lines 392 to 395: remove forbidden filename
characters, replace newline and carriage return with a space, trim. -/
def sanitizeTitle (newTitle : String) : String :=
  String.mk (trimChars
    ((newTitle.data.filter (fun c => !forbiddenFilenameChar c)).map
      (fun c => if c == '\n' || c == '\r' then ' ' else c)))

/-- Removal of filename-illegal characters, written as its own step in the
words of the spec (section 4.5). -/
def removeIllegalFilenameChars (s : String) : String :=
  String.mk (s.data.filter (fun c => !forbiddenFilenameChar c))

/-- Replacement of newlines and carriage returns by spaces, written as its
own step in the words of the spec (section 4.5). -/
def newlinesToSpaces (s : String) : String :=
  String.mk (s.data.map (fun c => if c == '\n' || c == '\r' then ' ' else c))

/-- The sanitization pipeline as the spec words it: strip illegal
characters, then collapse newlines to spaces, then trim. -/
def sanitizeTitleSpec (t : String) : String :=
  String.mk (trimChars (newlinesToSpaces (removeIllegalFilenameChars t)).data)

/-- The parts of an Obsidian TFile that updateNoteTitle reads: the vault
path, the parent folder path when a parent exists, and the extension. -/
structure FileRef where
  path : String
  parent : Option String
  extension : String

/-- Outcome of updateNoteTitle in src/main.ts lines 384 to 419. The three
noOp constructors are the early returns before any rename call; renamed
and renameFailed are the two results of the single renameFile call. -/
inductive RenameOutcome
  | emptyTitleNoOp
  | emptySanitizedNoOp
  | sameTitleNoOp
  | renamed (newPath : String)
  | renameFailed
  deriving DecidableEq

/-- Number of renameFile calls performed on each outcome path. -/
def renameCallCount : RenameOutcome → Nat
  | RenameOutcome.renamed _ => 1
  | RenameOutcome.renameFailed => 1
  | _ => 0

/-- True on the outcomes reported as no change made rather than an error. -/
def isNoOpOutcome : RenameOutcome → Bool
  | RenameOutcome.emptyTitleNoOp => true
  | RenameOutcome.emptySanitizedNoOp => true
  | RenameOutcome.sameTitleNoOp => true
  | _ => false

/-- Models src/main.ts lines 402 to 404: the destination path built from
the sanitized title, with the parent path prepended when it is non-empty. -/
def newPathFor (file : FileRef) (sanitizedTitle : String) : String :=
  let parentPath := match file.parent with | some p => p | none => ""
  if parentPath = "" then sanitizedTitle ++ "." ++ file.extension
  else parentPath ++ "/" ++ sanitizedTitle ++ "." ++ file.extension

/-- Models updateNoteTitle of src/main.ts lines 384 to 419. The Bool
parameter stands for the external renameFile call succeeding; the returned
Bool is the function result (true only after a successful rename). -/
def updateNoteTitle (file : FileRef) (newTitle : String)
    (renameSucceeds : Bool) : RenameOutcome × Bool :=
  if (trimChars newTitle.data).isEmpty then (RenameOutcome.emptyTitleNoOp, false)
  else
    let sanitizedTitle := sanitizeTitle newTitle
    if sanitizedTitle = "" then (RenameOutcome.emptySanitizedNoOp, false)
    else if file.path = newPathFor file sanitizedTitle then
      (RenameOutcome.sameTitleNoOp, false)
    else if renameSucceeds then
      (RenameOutcome.renamed (newPathFor file sanitizedTitle), true)
    else (RenameOutcome.renameFailed, false)

/-! Definitions for src/unnamed/part_000 (the older plugin variant with a
built-in sentence splitter). -/

/-- The character class of the live split at src/unnamed/part_000 line
161. An earlier split with an abbreviation guard is computed at line 153
but its result is overwritten by this one. -/
def isTerminalPunct (c : Char) : Bool :=
  c == '.' || c == '?' || c == '!'

/-- Models src/unnamed/part_000 line 161: split the note at every terminal
punctuation character. -/
def sentencesOf (noteContent : List Char) : List (List Char) :=
  splitChars isTerminalPunct noteContent

/-- Models src/unnamed/part_000 lines 164 to 167: trim each fragment, drop
empty fragments, drop fragments with fewer than three words. -/
def validSentences (noteContent : List Char) : List (List Char) :=
  (((sentencesOf noteContent).map trimChars).filter
      (fun s => decide (0 < s.length))).filter
    (fun s => decide (3 ≤ (wsSplit s).length))

/-- Models src/unnamed/part_000 line 172: keep the first K qualifying
sentences. -/
def sentencesToUse (noteContent : List Char) (K : Nat) : List (List Char) :=
  (validSentences noteContent).take K

/-- The same pipeline as validSentences with each trimmed fragment paired
with its position index in the parse order, so ordering properties can be
stated. The filters read only the sentence component. -/
def indexedValidSentences (noteContent : List Char) : List (Nat × List Char) :=
  ((((sentencesOf noteContent).map trimChars).enum.filter
      (fun p => decide (0 < p.2.length))).filter
    (fun p => decide (3 ≤ (wsSplit p.2).length)))

/-- The first-K selection of src/unnamed/part_000 line 172 with positions
attached. -/
def indexedSelection (noteContent : List Char) (K : Nat) : List (Nat × List Char) :=
  (indexedValidSentences noteContent).take K

/-! Helper lemmas. -/

/-- No fragment produced by splitChars contains a separator character. -/
theorem splitChars_no_separators (p : Char → Bool) (l : List Char) :
    ∀ s ∈ splitChars p l, ∀ c ∈ s, p c = false := by
  induction l with
  | nil =>
    intro s hs c hc
    simp only [splitChars, List.mem_singleton] at hs
    subst hs
    exact absurd hc (List.not_mem_nil c)
  | cons x xs ih =>
    intro s hs c hc
    cases hpx : p x with
    | true =>
      simp only [splitChars, hpx] at hs
      simp only [if_true] at hs
      rcases List.mem_cons.mp hs with h | h
      · subst h; exact absurd hc (List.not_mem_nil c)
      · exact ih s h c hc
    | false =>
      simp only [splitChars, hpx] at hs
      cases hsp : splitChars p xs with
      | nil =>
        rw [hsp] at hs
        simp at hs
        subst hs
        rcases List.mem_singleton.mp hc with rfl
        exact hpx
      | cons t ts =>
        rw [hsp] at hs
        simp only [Bool.false_eq_true, if_false] at hs
        rcases List.mem_cons.mp hs with h | h
        · subst h
          rcases List.mem_cons.mp hc with rfl | hct
          · exact hpx
          · exact ih t (by rw [hsp]; exact List.mem_cons_self t ts) c hct
        · exact ih s (by rw [hsp]; exact List.mem_cons.mpr (Or.inr h)) c hc

/-- The position components of enumFrom are strictly increasing. -/
theorem pairwise_fst_lt_enumFrom {α : Type} (n : Nat) (l : List α) :
    List.Pairwise (fun a b => a.1 < b.1) (List.enumFrom n l) := by
  induction l generalizing n with
  | nil => simp
  | cons x xs ih =>
    refine List.Pairwise.cons ?_ (ih (n + 1))
    intro p hp
    have h := List.le_fst_of_mem_enumFrom hp
    omega

/-- The first-K selection of the part_000 pipeline keeps the position
indices in nondecreasing order. -/
theorem pairwise_fst_le_indexedSelection (noteContent : List Char) (K : Nat) :
    List.Pairwise (fun a b => a.1 ≤ b.1) (indexedSelection noteContent K) := by
  have h2 : List.Pairwise (fun (a b : Nat × List Char) => a.1 < b.1)
      (indexedValidSentences noteContent) := by
    unfold indexedValidSentences
    exact ((pairwise_fst_lt_enumFrom 0 _).filter _).filter _
  have h3 : List.Pairwise (fun (a b : Nat × List Char) => a.1 < b.1)
      (indexedSelection noteContent K) :=
    List.Pairwise.sublist (List.take_sublist K _) h2
  exact h3.imp Nat.le_of_lt

/-- When the title field of the parsed value is absent or not a string,
the validity condition of src/main.ts line 363 fails. -/
theorem validTitleCheck_eq_none (j : JsonValue)
    (h : titleFieldIsString j = false) :
    validTitleCheck j = none := by
  unfold validTitleCheck
  cases hj : jsGetTitle j with
  | none => simp [hj]
  | some t =>
    rw [titleFieldIsString, hj] at h
    cases t with
    | str s => exact absurd h (by simp)
    | null => simp [hj]
    | bool b => simp [hj]
    | num n => simp [hj]
    | arr es => simp [hj]
    | obj fs => simp [hj]

/-! Claim theorems. -/

/-- Claim C1, counterexample. For the single-line document consisting only
of the image marker, with the summarizer yielding zero sentences on the
empty filtered text, generateTitle does not signal the empty-document
outcome: the extraction context is the 500-character slice of the raw
image markup, and with a well-formed oracle response the call returns a
title instead of null. -/
theorem claim_C1_counterexample :
    extractionResult (Except.ok []) ("![[image.png]]".data) =
      ExtractOutcome.context ("![[image.png]]".data) ∧
    generateTitle "key" ("![[image.png]]".data) (Except.ok [])
        (some (some (JsonValue.obj [("title", JsonValue.str "A Title")]))) =
      GenResult.titleResult "A Title" :=
  ⟨rfl, rfl⟩

/-- Claim C1, amended. For a document whose every line is solely an image
marker, the filtered text is empty, and when the summarizer yields zero
sentences generateTitle proceeds with the first 500 characters of the
original raw text (the image markup) as extraction context, provided that
slice is not whitespace-only; it does not signal the empty-document
outcome. -/
theorem claim_C1_amended (noteContent : List Char)
    (himg : (noteLines noteContent).all (fun l => isImageLine (trimChars l)) = true)
    (hslice : (trimChars (noteContent.take 500)).isEmpty = false) :
    extractionResult (Except.ok []) noteContent =
      ExtractOutcome.context (noteContent.take 500) := by
  have hfilter :
      (noteLines noteContent).filter (fun line => !isImageLine (trimChars line)) = [] := by
    rw [List.filter_eq_nil_iff]
    intro a ha
    have him := List.all_eq_true.mp himg a ha
    simp [him]
  have hproc : processedNoteContent noteContent = [] := by
    rw [processedNoteContent, hfilter]; rfl
  have hes : extractedSentences (Except.ok []) noteContent = noteContent.take 500 := by
    simp [extractedSentences, hproc, trimChars]
  simp [extractionResult, hes, hslice]

/-- Claim C1 amended, witness at the document consisting of one image
marker line. -/
theorem claim_C1_amended_witness :
    (noteLines ("![[image.png]]".data)).all (fun l => isImageLine (trimChars l)) = true ∧
    (trimChars (("![[image.png]]".data).take 500)).isEmpty = false ∧
    extractionResult (Except.ok []) ("![[image.png]]".data) =
      ExtractOutcome.context (("![[image.png]]".data).take 500) :=
  ⟨by decide, by decide, claim_C1_amended ("![[image.png]]".data) (by decide) (by decide)⟩

/-- Claim C2. When the summarizer yields zero sentences the extraction
context is the first 500 characters of the image-filtered text when that
text is non-empty after trimming, and of the original unfiltered text
otherwise; a summarizer error takes exactly the same fallback. -/
theorem claim_C2 (noteContent : List Char) :
    extractedSentences (Except.ok []) noteContent =
      (if (trimChars (processedNoteContent noteContent)).isEmpty
        then noteContent.take 500
        else (processedNoteContent noteContent).take 500) ∧
    extractedSentences (Except.error ()) noteContent =
      extractedSentences (Except.ok []) noteContent :=
  ⟨rfl, rfl⟩

/-- Claim C3, counterexample. The live split of src/unnamed/part_000 line
161 cuts the text at the period of the abbreviation: the document with a
single abbreviation period is parsed into two fragments rather than left
whole. -/
theorem claim_C3_counterexample :
    sentencesOf ("Mr. Smith spoke".data) = ["Mr".data, " Smith spoke".data] ∧
    sentencesOf ("Mr. Smith spoke".data) ≠ ["Mr. Smith spoke".data] :=
  ⟨by decide, by decide⟩

/-- Claim C3, amended. The sentence splitter that takes effect cuts at
every occurrence of the three terminal punctuation characters with no
abbreviation guard (the guarded split computed at line 153 is overwritten
at line 161): no produced fragment retains any terminal punctuation
character. -/
theorem claim_C3_amended (noteContent : List Char) (s : List Char)
    (hs : s ∈ sentencesOf noteContent) (c : Char) (hc : c ∈ s) :
    isTerminalPunct c = false :=
  splitChars_no_separators isTerminalPunct noteContent s hs c hc

/-- Claim C3 amended, witness on a small document. -/
theorem claim_C3_amended_witness :
    ("ab".data ∈ sentencesOf ("ab.c".data)) ∧ ('a' ∈ "ab".data) ∧
    isTerminalPunct 'a' = false :=
  ⟨by decide, by decide,
    claim_C3_amended ("ab.c".data) ("ab".data) (by decide) 'a' (by decide)⟩

/-- Claim C4. Every oracle outcome lacking a parsed string title (missing
response, unparseable response text, parsed value without a title field,
or with a non-string title field) lands on a failure path of the response
handling, which shows a notice and makes generateTitle return null. -/
theorem claim_C4 (resp : Option (Option JsonValue))
    (h : responseHasParsedStringTitle resp = false) :
    isFailureOutcome (handleOracleResponse resp) = true := by
  match resp with
  | none => rfl
  | some none => rfl
  | some (some j) =>
    have hv : validTitleCheck j = none := by
      apply validTitleCheck_eq_none
      simpa [responseHasParsedStringTitle] using h
    simp [handleOracleResponse, hv, isFailureOutcome]

/-- Claim C4, witness at the missing-response outcome. -/
theorem claim_C4_witness :
    responseHasParsedStringTitle none = false ∧
    isFailureOutcome (handleOracleResponse none) = true :=
  ⟨rfl, claim_C4 none rfl⟩

/-- Claim C5. When the sanitized title is empty, or the path built from it
equals the current path, updateNoteTitle performs zero rename calls,
reports a no-op outcome, and returns false. -/
theorem claim_C5 (file : FileRef) (newTitle : String) (renameSucceeds : Bool)
    (h : sanitizeTitle newTitle = "" ∨
      newPathFor file (sanitizeTitle newTitle) = file.path) :
    renameCallCount (updateNoteTitle file newTitle renameSucceeds).1 = 0 ∧
    isNoOpOutcome (updateNoteTitle file newTitle renameSucceeds).1 = true ∧
    (updateNoteTitle file newTitle renameSucceeds).2 = false := by
  unfold updateNoteTitle
  by_cases h1 : (trimChars newTitle.data).isEmpty
  · simp [h1, renameCallCount, isNoOpOutcome]
  · by_cases h2 : sanitizeTitle newTitle = ""
    · simp [h1, h2, renameCallCount, isNoOpOutcome]
    · have h3 : file.path = newPathFor file (sanitizeTitle newTitle) :=
        (h.resolve_left h2).symm
      simp [h1, h2, h3, renameCallCount, isNoOpOutcome]

/-- Claim C5, witness: a title equal to the current filename is a no-op. -/
theorem claim_C5_witness :
    (sanitizeTitle "Note" = "" ∨
      newPathFor ⟨"Note.md", none, "md"⟩ (sanitizeTitle "Note") = "Note.md") ∧
    renameCallCount (updateNoteTitle ⟨"Note.md", none, "md"⟩ "Note" true).1 = 0 ∧
    isNoOpOutcome (updateNoteTitle ⟨"Note.md", none, "md"⟩ "Note" true).1 = true ∧
    (updateNoteTitle ⟨"Note.md", none, "md"⟩ "Note" true).2 = false :=
  ⟨Or.inr (by decide), claim_C5 ⟨"Note.md", none, "md"⟩ "Note" true (Or.inr (by decide))⟩

/-- Claim C6. The selection of src/unnamed/part_000 line 172 keeps at most
min(K, N) of the N qualifying sentences, and keeps all of them when there
are fewer than K. -/
theorem claim_C6 (noteContent : List Char) (K : Nat) (_hK : 0 < K) :
    (sentencesToUse noteContent K).length ≤
      min K (validSentences noteContent).length ∧
    ((validSentences noteContent).length < K →
      sentencesToUse noteContent K = validSentences noteContent) := by
  constructor
  · rw [sentencesToUse, List.length_take]
  · intro h
    exact List.take_of_length_le (Nat.le_of_lt h)

/-- Claim C6, witness on a one-sentence document with K = 1. -/
theorem claim_C6_witness :
    0 < 1 ∧
    ((sentencesToUse ("Hello big world.".data) 1).length ≤
      min 1 (validSentences ("Hello big world.".data)).length ∧
    ((validSentences ("Hello big world.".data)).length < 1 →
      sentencesToUse ("Hello big world.".data) 1 =
        validSentences ("Hello big world.".data))) :=
  ⟨Nat.one_pos, claim_C6 ("Hello big world.".data) 1 Nat.one_pos⟩

/-- Claim C7. Under occurrence ordering the selection is a subsequence of
the parse order: for result indices i before j, the position index of the
earlier selected sentence is at most that of the later one. -/
theorem claim_C7 (noteContent : List Char) (K i j : Nat) (hij : i < j)
    (hj : j < (indexedSelection noteContent K).length) :
    ((indexedSelection noteContent K).getD i (0, [])).1 ≤
      ((indexedSelection noteContent K).getD j (0, [])).1 := by
  have hi : i < (indexedSelection noteContent K).length := Nat.lt_trans hij hj
  rw [List.getD_eq_getElem _ _ hi, List.getD_eq_getElem _ _ hj]
  exact List.pairwise_iff_getElem.mp
    (pairwise_fst_le_indexedSelection noteContent K) i j hi hj hij

/-- Claim C7, witness on a two-sentence document with K = 2. -/
theorem claim_C7_witness :
    0 < 1 ∧
    1 < (indexedSelection ("One two three. Four five six.".data) 2).length ∧
    ((indexedSelection ("One two three. Four five six.".data) 2).getD 0 (0, [])).1 ≤
      ((indexedSelection ("One two three. Four five six.".data) 2).getD 1 (0, [])).1 :=
  ⟨Nat.one_pos, by decide,
    claim_C7 ("One two three. Four five six.".data) 2 0 1 Nat.one_pos (by decide)⟩

/-- Claim C8. With the empty api key, generateTitle yields the
configuration-error result for every note content, independently of the
summarizer and oracle outcomes, so neither external stage is consulted. -/
theorem claim_C8 (noteContent : List Char) (s1 s2 : Except Unit (List (List Char)))
    (o1 o2 : Option (Option JsonValue)) :
    generateTitle "" noteContent s1 o1 = GenResult.configError ∧
    generateTitle "" noteContent s1 o1 = generateTitle "" noteContent s2 o2 :=
  ⟨rfl, rfl⟩

/-- Claim C9. The sanitization of src/main.ts lines 392 to 395 equals the
spec pipeline of removing filename-illegal characters, then replacing
newlines and carriage returns with spaces, then trimming; on the example
title with surrounding spaces it yields the trimmed title. -/
theorem claim_C9 (t : String) :
    sanitizeTitle t = sanitizeTitleSpec t ∧
    sanitizeTitle "  My Great Note  " = "My Great Note" :=
  ⟨rfl, by decide⟩

/-- Claim C10. A response parsing to an object whose title field is the
empty string fails the truthiness check of src/main.ts line 363, so the
handling reports a failure notice and generateTitle returns null. -/
theorem claim_C10 (fields : List (String × JsonValue))
    (h : lookupField fields "title" = some (JsonValue.str "")) :
    handleOracleResponse (some (some (JsonValue.obj fields))) =
      TitleOutcome.failure "Failed to get a valid title from Gemini JSON response." := by
  have hv : validTitleCheck (JsonValue.obj fields) = none := by
    simp [validTitleCheck, jsGetTitle, h, jsTruthy]
  simp [handleOracleResponse, hv]

/-- Claim C10, witness at the object holding an empty-string title. -/
theorem claim_C10_witness :
    lookupField [("title", JsonValue.str "")] "title" = some (JsonValue.str "") ∧
    handleOracleResponse (some (some (JsonValue.obj [("title", JsonValue.str "")]))) =
      TitleOutcome.failure "Failed to get a valid title from Gemini JSON response." :=
  ⟨rfl, claim_C10 [("title", JsonValue.str "")] rfl⟩
